import Mathlib

/-!
Verification of the v4l2 capability shim (src/webcam-fix/v4l2_cap_hack.c).

The shim is an LD_PRELOAD library exporting one function, ioctl.  On every
call it lazily resolves the real ioctl via dlsym(RTLD_NEXT), forwards the
descriptor, request code and the single variadic argument verbatim, and then,
only when the forwarded call returned 0 and the request code is
VIDIOC_QUERYCAP, inspects the returned v4l2_capability record: when the card
name contains one of the substrings "Loopback", "NekoCam" or "loopback", it
ORs V4L2_CAP_VIDEO_OUTPUT into both the capabilities and the device_caps
fields.  The status from the real call is always returned unchanged.

The embedding below models the record, the strstr-based match heuristic, the
post-processing and the lazily initialized delegate handle directly from the
C source.  The real ioctl is a parameter (a pure function from the inputs to
a status plus the data the argument pointer holds after the call); the unique
process-wide delegate handle is explicit state of type Option RealIoctl, and
a call forwarded through a NULL handle, which in C is undefined behavior, is
modelled as the absent result none.
-/

namespace V4l2CapHack

/-- Request code VIDIOC_QUERYCAP from linux/videodev2.h: the numeric value of
the macro on Linux, with direction read, size 0x68 (sizeof(struct
v4l2_capability)), type 0x56 and number 0. -/
def VIDIOC_QUERYCAP : Nat := 0x80685600

/-- Capability bit V4L2_CAP_VIDEO_CAPTURE from linux/videodev2.h. -/
def V4L2_CAP_VIDEO_CAPTURE : Nat := 0x00000001

/-- Capability bit V4L2_CAP_VIDEO_OUTPUT from linux/videodev2.h. -/
def V4L2_CAP_VIDEO_OUTPUT : Nat := 0x00000002

/-- The struct v4l2_capability record from linux/videodev2.h.  The three
character arrays are byte lists, the 32-bit fields are naturals; the reserved
words are kept so that the record carries every byte of the C struct. -/
structure v4l2_capability where
  driver : List Nat
  card : List Nat
  bus_info : List Nat
  version : Nat
  capabilities : Nat
  device_caps : Nat
  reserved : List Nat
deriving DecidableEq

/-- The data reachable through the variadic argument: for VIDIOC_QUERYCAP it
is a caller-allocated v4l2_capability record, for any other request code the
shim treats it as an uninterpreted payload, modelled as raw bytes. -/
inductive IoctlArg where
  | capRec (cap : v4l2_capability)
  | rawBytes (bs : List Nat)
deriving DecidableEq

/-- The real (un-intercepted) ioctl as a pure function: from the descriptor,
the request code and the data behind the argument it yields the status and
the data behind the argument after the call. -/
def RealIoctl : Type := Int → Nat → IoctlArg → Int × IoctlArg

/-- The C strstr call viewed as a Boolean test: true exactly when needle
occurs as a contiguous run inside hay (strstr returns a non-NULL pointer). -/
def strstrB (needle : List Nat) : List Nat → Bool
  | [] => needle.isPrefixOf []
  | b :: t => needle.isPrefixOf (b :: t) || strstrB needle t

/-- Reading a fixed-size character buffer as the C string strstr scans: the
bytes strictly before the first NUL byte. -/
def cstr (bs : List Nat) : List Nat := bs.takeWhile (fun b => b != 0)

/-- ASCII bytes of the literal "Loopback" (line 57 of the C source). -/
def loopbackUpperBytes : List Nat := [76, 111, 111, 112, 98, 97, 99, 107]

/-- ASCII bytes of the literal "NekoCam" (line 58 of the C source). -/
def nekoCamBytes : List Nat := [78, 101, 107, 111, 67, 97, 109]

/-- ASCII bytes of the literal "loopback" (line 59 of the C source). -/
def loopbackLowerBytes : List Nat := [108, 111, 111, 112, 98, 97, 99, 107]

/-- The match heuristic of lines 57 - 59: strstr the card name, read as a C
string, for each of the three fixed substrings, succeeding when any hits. -/
def cardMatches (card : List Nat) : Bool :=
  strstrB loopbackUpperBytes (cstr card) ||
  strstrB nekoCamBytes (cstr card) ||
  strstrB loopbackLowerBytes (cstr card)

/-- Lines 57 - 63: when the card name matches, OR V4L2_CAP_VIDEO_OUTPUT into
both the capabilities and the device_caps fields; otherwise leave the record
exactly as the real call produced it. -/
def applyCapHack (cap : v4l2_capability) : v4l2_capability :=
  if cardMatches cap.card then
    { cap with
        capabilities := cap.capabilities ||| V4L2_CAP_VIDEO_OUTPUT,
        device_caps := cap.device_caps ||| V4L2_CAP_VIDEO_OUTPUT }
  else cap

/-- The body of the intercepted ioctl (lines 44 - 70) once the delegate is
resolved: forward fd, request and the argument verbatim, capture the status,
and only when the status is 0 and the request is VIDIOC_QUERYCAP reinterpret
the argument as a capability record and apply the conditional mutation.  On a
non-QUERYCAP request nothing is reinterpreted; the rawBytes arm under a
QUERYCAP request stands for data the embedding gives no struct layout to, and
is carried through unchanged. -/
def ioctl (real_ioctl : RealIoctl) (fd : Int) (request : Nat) (arg : IoctlArg) :
    Int × IoctlArg :=
  let r := real_ioctl fd request arg
  if r.1 = 0 ∧ request = VIDIOC_QUERYCAP then
    match r.2 with
    | IoctlArg.capRec cap => (r.1, IoctlArg.capRec (applyCapHack cap))
    | IoctlArg.rawBytes bs => (r.1, IoctlArg.rawBytes bs)
  else r

/-- Line 27: the file-scope delegate handle starts out NULL. -/
def real_ioctl_start : Option RealIoctl := none

/-- Lines 30 - 34, init_real_ioctl: assign the dlsym(RTLD_NEXT) result to the
handle only when the handle is still NULL; otherwise leave it untouched. -/
def init_real_ioctl (real_ioctl : Option RealIoctl) (dls : Option RealIoctl) :
    Option RealIoctl :=
  match real_ioctl with
  | none => dls
  | some f => some f

/-- One invocation of the intercepted entry point together with the handle
state (lines 37 - 71): run init_real_ioctl, then call through the handle with
no NULL check (line 49).  A call through a NULL handle is undefined behavior,
modelled as the absent result; the pair also returns the handle state the
invocation leaves behind. -/
def ioctlWithState (real_ioctl dls : Option RealIoctl) (fd : Int) (request : Nat)
    (arg : IoctlArg) : Option (Int × IoctlArg) × Option RealIoctl :=
  match init_real_ioctl real_ioctl dls with
  | none => (none, none)
  | some f => (some (ioctl f fd request arg), some f)

/-- ASCII bytes of "Dummy Loopback Device", the positive example of the spec. -/
def dummyLoopbackCard : List Nat :=
  [68, 117, 109, 109, 121, 32, 76, 111, 111, 112, 98, 97, 99, 107, 32,
   68, 101, 118, 105, 99, 101]

/-- ASCII bytes of "USB2.0 HD UVC WebCam", the negative example of the spec. -/
def usbWebCamCard : List Nat :=
  [85, 83, 66, 50, 46, 48, 32, 72, 68, 32, 85, 86, 67, 32, 87, 101, 98, 67, 97, 109]

/-- ASCII bytes of "NekoCam". -/
def nekoCard : List Nat := [78, 101, 107, 111, 67, 97, 109]

/-- ASCII bytes of "v4l2loopback-000", which contains lowercase "loopback". -/
def v4l2loopCard : List Nat :=
  [118, 52, 108, 50, 108, 111, 111, 112, 98, 97, 99, 107, 45, 48, 48, 48]

/-- A concrete capability record for a loopback device: capture bit set in
both bitmask fields, card name "Dummy Loopback Device". -/
def demoLoopCap : v4l2_capability :=
  { driver := [], card := dummyLoopbackCard, bus_info := [], version := 0,
    capabilities := 1, device_caps := 1, reserved := [0, 0, 0] }

/-- A concrete delegate answering VIDIOC_QUERYCAP with status 0 and the
loopback record demoLoopCap. -/
def demoRealLoop : RealIoctl := fun _ _ _ => (0, IoctlArg.capRec demoLoopCap)

/-- A concrete capability record whose card name is "NekoCam". -/
def nekoCap : v4l2_capability :=
  { driver := [], card := nekoCard, bus_info := [], version := 0,
    capabilities := 1, device_caps := 1, reserved := [0, 0, 0] }

/-- A concrete delegate answering with status 0 and the NekoCam record. -/
def demoRealNeko : RealIoctl := fun _ _ _ => (0, IoctlArg.capRec nekoCap)

/-- A concrete capability record whose card name is "v4l2loopback-000". -/
def v4l2loopCap : v4l2_capability :=
  { driver := [], card := v4l2loopCard, bus_info := [], version := 0,
    capabilities := 1, device_caps := 1, reserved := [0, 0, 0] }

/-- A concrete delegate answering with status 0 and the v4l2loopback record. -/
def demoRealV4l2loop : RealIoctl := fun _ _ _ => (0, IoctlArg.capRec v4l2loopCap)

/-- A concrete capability record of a real UVC camera, card name
"USB2.0 HD UVC WebCam". -/
def usbCap : v4l2_capability :=
  { driver := [], card := usbWebCamCard, bus_info := [], version := 0,
    capabilities := 0x84200001, device_caps := 0x04200001, reserved := [0, 0, 0] }

/-- A concrete delegate answering with status 0 and the UVC camera record. -/
def demoRealUsb : RealIoctl := fun _ _ _ => (0, IoctlArg.capRec usbCap)

/-- A concrete delegate that fails every call with status -1, leaving the
argument data untouched. -/
def demoRealFail : RealIoctl := fun _ _ a => (-1, a)

/-- A concrete delegate returning the positive status 1, leaving the argument
data untouched. -/
def demoRealBusy : RealIoctl := fun _ _ a => (1, a)

/-- Helper: the value of one testBit of V4L2_CAP_VIDEO_OUTPUT, which is 2^1. -/
theorem testBit_output_bit (i : Nat) :
    V4L2_CAP_VIDEO_OUTPUT.testBit i = decide (i = 1) := by
  have h2 : V4L2_CAP_VIDEO_OUTPUT = 2 ^ 1 := rfl
  rcases eq_or_ne i 1 with h | h
  · subst h
    decide
  · rw [h2, Nat.testBit_two_pow_of_ne (Ne.symm h)]
    simp [h]

/-- Helper: per-bit view of ORing V4L2_CAP_VIDEO_OUTPUT into a field. -/
theorem lor_output_testBit (x i : Nat) :
    (x ||| V4L2_CAP_VIDEO_OUTPUT).testBit i = (x.testBit i || decide (i = 1)) := by
  rw [Nat.testBit_lor, testBit_output_bit]

/-- Helper: a hit of the first strstr call makes the heuristic succeed. -/
theorem cardMatches_of_upper (card : List Nat)
    (h : strstrB loopbackUpperBytes (cstr card) = true) : cardMatches card = true := by
  unfold cardMatches
  rw [h]
  rfl

/-- Helper: a hit of the second strstr call makes the heuristic succeed. -/
theorem cardMatches_of_neko (card : List Nat)
    (h : strstrB nekoCamBytes (cstr card) = true) : cardMatches card = true := by
  unfold cardMatches
  rw [h]
  simp

/-- Helper: a hit of the third strstr call makes the heuristic succeed. -/
theorem cardMatches_of_lower (card : List Nat)
    (h : strstrB loopbackLowerBytes (cstr card) = true) : cardMatches card = true := by
  unfold cardMatches
  rw [h]
  simp

/-- Helper: on a matching card the mutation ORs the output bit into both
bitmask fields and changes nothing else of the record. -/
theorem applyCapHack_of_matches (cap : v4l2_capability)
    (h : cardMatches cap.card = true) :
    applyCapHack cap =
      { cap with
          capabilities := cap.capabilities ||| V4L2_CAP_VIDEO_OUTPUT,
          device_caps := cap.device_caps ||| V4L2_CAP_VIDEO_OUTPUT } := by
  simp [applyCapHack, h]

/-- Helper: on a non-matching card the record passes through unchanged. -/
theorem applyCapHack_of_no_match (cap : v4l2_capability)
    (h : cardMatches cap.card = false) : applyCapHack cap = cap := by
  simp [applyCapHack, h]

/-- Helper: on a successful VIDIOC_QUERYCAP call the shim returns status 0
and the record after the conditional mutation. -/
theorem ioctl_querycap_success (real_ioctl : RealIoctl) (fd : Int) (a : IoctlArg)
    (cap : v4l2_capability)
    (hreal : real_ioctl fd VIDIOC_QUERYCAP a = (0, IoctlArg.capRec cap)) :
    ioctl real_ioctl fd VIDIOC_QUERYCAP a = (0, IoctlArg.capRec (applyCapHack cap)) := by
  simp [ioctl, hreal]

/-- Claim C2: for every request code other than VIDIOC_QUERYCAP and every
descriptor and argument, the shim returns exactly what the real
implementation returns, status and argument data alike. -/
theorem transparency_non_querycap (real_ioctl : RealIoctl) (fd : Int)
    (request : Nat) (arg : IoctlArg) (hreq : request ≠ VIDIOC_QUERYCAP) :
    ioctl real_ioctl fd request arg = real_ioctl fd request arg := by
  unfold ioctl
  rcases hr : real_ioctl fd request arg with ⟨ret, a2⟩
  simp [hreq]

/-- Witness for C2: a non-QUERYCAP request code forwarded through a concrete
delegate comes back untouched. -/
theorem transparency_non_querycap_witness :
    ioctl demoRealLoop 3 0x5401 (IoctlArg.rawBytes [5, 6]) =
      demoRealLoop 3 0x5401 (IoctlArg.rawBytes [5, 6]) :=
  transparency_non_querycap demoRealLoop 3 0x5401 (IoctlArg.rawBytes [5, 6]) (by decide)

/-- Claim C3: when the real implementation fails a VIDIOC_QUERYCAP call with
a negative status, the shim returns that status and the argument data exactly
as the real implementation left them: no mutation happens. -/
theorem querycap_failure_passthrough (real_ioctl : RealIoctl) (fd : Int)
    (a a2 : IoctlArg) (ret : Int)
    (hreal : real_ioctl fd VIDIOC_QUERYCAP a = (ret, a2)) (hneg : ret < 0) :
    ioctl real_ioctl fd VIDIOC_QUERYCAP a = (ret, a2) := by
  have hne : ret ≠ 0 := by omega
  unfold ioctl
  rw [hreal]
  simp [hne]

/-- Witness for C3: a concrete delegate failing with -1 passes through. -/
theorem querycap_failure_passthrough_witness :
    ioctl demoRealFail 7 VIDIOC_QUERYCAP (IoctlArg.capRec demoLoopCap) =
      (-1, IoctlArg.capRec demoLoopCap) :=
  querycap_failure_passthrough demoRealFail 7 (IoctlArg.capRec demoLoopCap)
    (IoctlArg.capRec demoLoopCap) (-1) rfl (by decide)

/-- Claim C6: on every path the status the shim returns equals the status the
real implementation returned for that call. -/
theorem status_never_fabricated (real_ioctl : RealIoctl) (fd : Int)
    (request : Nat) (arg : IoctlArg) :
    (ioctl real_ioctl fd request arg).1 = (real_ioctl fd request arg).1 := by
  rcases hr : real_ioctl fd request arg with ⟨ret, a2⟩
  simp only [ioctl, hr]
  by_cases h0 : ret = 0 ∧ request = VIDIOC_QUERYCAP
  · rw [if_pos h0]
    cases a2 <;> rfl
  · rw [if_neg h0]

/-- Claim C9: the mutation is gated on the delegate status being exactly 0:
for any nonzero status, positive included, the shim passes status and
argument data through untouched. -/
theorem nonzero_status_no_mutation (real_ioctl : RealIoctl) (fd : Int)
    (a a2 : IoctlArg) (ret : Int)
    (hreal : real_ioctl fd VIDIOC_QUERYCAP a = (ret, a2)) (hnz : ret ≠ 0) :
    ioctl real_ioctl fd VIDIOC_QUERYCAP a = (ret, a2) := by
  unfold ioctl
  rw [hreal]
  simp [hnz]

/-- Witness for C9: a concrete delegate returning the positive status 1 on a
QUERYCAP call for a loopback record passes through with no mutation. -/
theorem nonzero_status_no_mutation_witness :
    ioctl demoRealBusy 7 VIDIOC_QUERYCAP (IoctlArg.capRec demoLoopCap) =
      (1, IoctlArg.capRec demoLoopCap) :=
  nonzero_status_no_mutation demoRealBusy 7 (IoctlArg.capRec demoLoopCap)
    (IoctlArg.capRec demoLoopCap) 1 rfl (by decide)

/-- Claim C10: the match-and-mutate post-processing step is idempotent:
applying it twice produces the same record as applying it once. -/
theorem applyCapHack_idempotent (cap : v4l2_capability) :
    applyCapHack (applyCapHack cap) = applyCapHack cap := by
  cases hm : cardMatches cap.card with
  | false => simp [applyCapHack, hm]
  | true =>
      simp only [applyCapHack_of_matches cap hm]
      have hcard : cardMatches
          ({ cap with
              capabilities := cap.capabilities ||| V4L2_CAP_VIDEO_OUTPUT,
              device_caps := cap.device_caps ||| V4L2_CAP_VIDEO_OUTPUT } :
            v4l2_capability).card = true := hm
      simp [applyCapHack, hcard, Nat.lor_assoc]

/-- Claim C1: on a VIDIOC_QUERYCAP call where the delegate succeeds with a
record whose card name contains "Loopback", the shim sets the
V4L2_CAP_VIDEO_OUTPUT bit in both the capabilities and device_caps fields,
and every other bit of both fields keeps the value the real implementation
produced. -/
theorem querycap_loopback_sets_output (real_ioctl : RealIoctl) (fd : Int)
    (a : IoctlArg) (cap : v4l2_capability)
    (hreal : real_ioctl fd VIDIOC_QUERYCAP a = (0, IoctlArg.capRec cap))
    (hname : strstrB loopbackUpperBytes (cstr cap.card) = true) :
    ioctl real_ioctl fd VIDIOC_QUERYCAP a = (0, IoctlArg.capRec (applyCapHack cap)) ∧
    (applyCapHack cap).capabilities.testBit 1 = true ∧
    (applyCapHack cap).device_caps.testBit 1 = true ∧
    (∀ i, i ≠ 1 → (applyCapHack cap).capabilities.testBit i = cap.capabilities.testBit i) ∧
    (∀ i, i ≠ 1 → (applyCapHack cap).device_caps.testBit i = cap.device_caps.testBit i) := by
  have hm : cardMatches cap.card = true := cardMatches_of_upper cap.card hname
  have hmut := applyCapHack_of_matches cap hm
  refine ⟨ioctl_querycap_success real_ioctl fd a cap hreal, ?_, ?_, ?_, ?_⟩
  · rw [hmut]
    show (cap.capabilities ||| V4L2_CAP_VIDEO_OUTPUT).testBit 1 = true
    rw [lor_output_testBit]
    simp
  · rw [hmut]
    show (cap.device_caps ||| V4L2_CAP_VIDEO_OUTPUT).testBit 1 = true
    rw [lor_output_testBit]
    simp
  · intro i hi
    rw [hmut]
    show (cap.capabilities ||| V4L2_CAP_VIDEO_OUTPUT).testBit i = cap.capabilities.testBit i
    rw [lor_output_testBit]
    simp [hi]
  · intro i hi
    rw [hmut]
    show (cap.device_caps ||| V4L2_CAP_VIDEO_OUTPUT).testBit i = cap.device_caps.testBit i
    rw [lor_output_testBit]
    simp [hi]

/-- Witness for C1 at the record demoLoopCap with card name
"Dummy Loopback Device": the shim mutates it, the output bit ends set, and
bit 0 is untouched. -/
theorem querycap_loopback_sets_output_witness :
    ioctl demoRealLoop 7 VIDIOC_QUERYCAP (IoctlArg.rawBytes []) =
      (0, IoctlArg.capRec (applyCapHack demoLoopCap)) ∧
    (applyCapHack demoLoopCap).capabilities.testBit 1 = true ∧
    (applyCapHack demoLoopCap).capabilities.testBit 0 =
      demoLoopCap.capabilities.testBit 0 :=
  have h := querycap_loopback_sets_output demoRealLoop 7 (IoctlArg.rawBytes [])
    demoLoopCap rfl (by decide)
  ⟨h.1, h.2.1, h.2.2.2.1 0 (by decide)⟩

/-- Claim C4: on a successful capability query, a card name containing
"NekoCam" or lowercase "loopback" triggers the OR mutation of both bitmask
fields, while the card name "USB2.0 HD UVC WebCam" does not trigger it and
the record comes back exactly as the real implementation produced it. -/
theorem querycap_case_variants :
    (∀ (real_ioctl : RealIoctl) (fd : Int) (a : IoctlArg) (cap : v4l2_capability),
        real_ioctl fd VIDIOC_QUERYCAP a = (0, IoctlArg.capRec cap) →
        strstrB nekoCamBytes (cstr cap.card) = true →
        ioctl real_ioctl fd VIDIOC_QUERYCAP a =
          (0, IoctlArg.capRec { cap with
              capabilities := cap.capabilities ||| V4L2_CAP_VIDEO_OUTPUT,
              device_caps := cap.device_caps ||| V4L2_CAP_VIDEO_OUTPUT })) ∧
    (∀ (real_ioctl : RealIoctl) (fd : Int) (a : IoctlArg) (cap : v4l2_capability),
        real_ioctl fd VIDIOC_QUERYCAP a = (0, IoctlArg.capRec cap) →
        strstrB loopbackLowerBytes (cstr cap.card) = true →
        ioctl real_ioctl fd VIDIOC_QUERYCAP a =
          (0, IoctlArg.capRec { cap with
              capabilities := cap.capabilities ||| V4L2_CAP_VIDEO_OUTPUT,
              device_caps := cap.device_caps ||| V4L2_CAP_VIDEO_OUTPUT })) ∧
    (∀ (real_ioctl : RealIoctl) (fd : Int) (a : IoctlArg) (cap : v4l2_capability),
        real_ioctl fd VIDIOC_QUERYCAP a = (0, IoctlArg.capRec cap) →
        cap.card = usbWebCamCard →
        ioctl real_ioctl fd VIDIOC_QUERYCAP a = (0, IoctlArg.capRec cap)) := by
  refine ⟨?_, ?_, ?_⟩
  · intro real_ioctl fd a cap hreal hname
    rw [ioctl_querycap_success real_ioctl fd a cap hreal,
      applyCapHack_of_matches cap (cardMatches_of_neko cap.card hname)]
  · intro real_ioctl fd a cap hreal hname
    rw [ioctl_querycap_success real_ioctl fd a cap hreal,
      applyCapHack_of_matches cap (cardMatches_of_lower cap.card hname)]
  · intro real_ioctl fd a cap hreal hcard
    have hm : cardMatches cap.card = false := by
      rw [hcard]
      decide
    rw [ioctl_querycap_success real_ioctl fd a cap hreal,
      applyCapHack_of_no_match cap hm]

/-- Witness for C4: concrete delegates with card names "NekoCam",
"v4l2loopback-000" and "USB2.0 HD UVC WebCam"; the first two are mutated,
the third record comes back untouched. -/
theorem querycap_case_variants_witness :
    ioctl demoRealNeko 7 VIDIOC_QUERYCAP (IoctlArg.rawBytes []) =
      (0, IoctlArg.capRec { nekoCap with
          capabilities := nekoCap.capabilities ||| V4L2_CAP_VIDEO_OUTPUT,
          device_caps := nekoCap.device_caps ||| V4L2_CAP_VIDEO_OUTPUT }) ∧
    ioctl demoRealV4l2loop 7 VIDIOC_QUERYCAP (IoctlArg.rawBytes []) =
      (0, IoctlArg.capRec { v4l2loopCap with
          capabilities := v4l2loopCap.capabilities ||| V4L2_CAP_VIDEO_OUTPUT,
          device_caps := v4l2loopCap.device_caps ||| V4L2_CAP_VIDEO_OUTPUT }) ∧
    ioctl demoRealUsb 7 VIDIOC_QUERYCAP (IoctlArg.rawBytes []) =
      (0, IoctlArg.capRec usbCap) :=
  ⟨querycap_case_variants.1 demoRealNeko 7 (IoctlArg.rawBytes []) nekoCap rfl
      (by decide),
   querycap_case_variants.2.1 demoRealV4l2loop 7 (IoctlArg.rawBytes []) v4l2loopCap
      rfl (by decide),
   querycap_case_variants.2.2 demoRealUsb 7 (IoctlArg.rawBytes []) usbCap rfl rfl⟩

/-- Claim C5: a matching mutation replaces each bitmask field by its old
value ORed with V4L2_CAP_VIDEO_OUTPUT; in particular a set capture bit stays
set next to the new output bit, and no set bit of either field is ever
cleared. -/
theorem mutation_or_semantics (cap : v4l2_capability)
    (h : cardMatches cap.card = true) :
    (applyCapHack cap).capabilities = cap.capabilities ||| V4L2_CAP_VIDEO_OUTPUT ∧
    (applyCapHack cap).device_caps = cap.device_caps ||| V4L2_CAP_VIDEO_OUTPUT ∧
    (cap.capabilities.testBit 0 = true →
      (applyCapHack cap).capabilities.testBit 0 = true ∧
      (applyCapHack cap).capabilities.testBit 1 = true) ∧
    (∀ i, cap.capabilities.testBit i = true →
      (applyCapHack cap).capabilities.testBit i = true) ∧
    (∀ i, cap.device_caps.testBit i = true →
      (applyCapHack cap).device_caps.testBit i = true) := by
  have hmut := applyCapHack_of_matches cap h
  refine ⟨by simp [hmut], by simp [hmut], ?_, ?_, ?_⟩
  · intro hc
    rw [hmut]
    constructor
    · show (cap.capabilities ||| V4L2_CAP_VIDEO_OUTPUT).testBit 0 = true
      rw [lor_output_testBit, hc]
      rfl
    · show (cap.capabilities ||| V4L2_CAP_VIDEO_OUTPUT).testBit 1 = true
      rw [lor_output_testBit]
      simp
  · intro i hi
    simp [hmut, lor_output_testBit, hi]
  · intro i hi
    simp [hmut, lor_output_testBit, hi]

/-- Witness for C5 at demoLoopCap, whose capture bit is set beforehand:
after the mutation the capabilities field is the old value ORed with the
output bit and both bit 0 and bit 1 are set. -/
theorem mutation_or_semantics_witness :
    (applyCapHack demoLoopCap).capabilities =
      demoLoopCap.capabilities ||| V4L2_CAP_VIDEO_OUTPUT ∧
    (applyCapHack demoLoopCap).capabilities.testBit 0 = true ∧
    (applyCapHack demoLoopCap).capabilities.testBit 1 = true :=
  have h := mutation_or_semantics demoLoopCap (by decide)
  ⟨h.1, (h.2.2.1 (by decide)).1, (h.2.2.1 (by decide)).2⟩

/-- Claim C7: the delegate handle starts NULL, an already-resolved handle is
never reassigned, any number of resolutions after the first successful one
still yields that same non-null delegate, and an invocation of the entry
point with a resolved handle forwards through exactly that delegate and
leaves the handle in place. -/
theorem delegate_handle_write_once :
    real_ioctl_start = none ∧
    (∀ (dls : Option RealIoctl) (f : RealIoctl),
        init_real_ioctl (some f) dls = some f) ∧
    (∀ (dls : Option RealIoctl) (f : RealIoctl) (n : Nat),
        (fun s => init_real_ioctl s dls)^[n]
          (init_real_ioctl real_ioctl_start (some f)) = some f) ∧
    (∀ (dls : Option RealIoctl) (f : RealIoctl) (fd : Int) (request : Nat)
        (arg : IoctlArg),
        ioctlWithState (some f) dls fd request arg =
          (some (ioctl f fd request arg), some f)) := by
  refine ⟨rfl, fun dls f => rfl, ?_, fun dls f fd request arg => rfl⟩
  intro dls f n
  show (fun s => init_real_ioctl s dls)^[n] (some f) = some f
  induction n with
  | zero => rfl
  | succ n ih =>
      rw [Function.iterate_succ_apply]
      exact ih

/-- Claim C8: when the handle is unresolved and resolution finds nothing,
the handle stays NULL and every invocation of the entry point forwards
through the NULL handle with no guard; the embedding records that call
through the absent delegate as the undefined-behavior outcome none. -/
theorem null_delegate_unguarded_call (fd : Int) (request : Nat) (arg : IoctlArg) :
    ioctlWithState real_ioctl_start none fd request arg = (none, none) := rfl

end V4l2CapHack
